import Mathlib

/-!
Verification development for `almdrlib.session` (alertlogic-sdk-python).

The file shallowly embeds `src/almdrlib/session.py`: the `Session` class, its
constructor, the internal `_set_credentials` and `_authenticate` methods, the
requests-lib auth callback `__call__`, the generic `request` dispatcher,
`get_url`, and the lazy property accessors.

Modelling conventions:
- Python values reachable in this code (JSON-decoded bodies, header values,
  stored attributes) are modelled by `PyVal`: Python `None`, strings, and
  dicts with string keys (`PyFields`).  `response.json()` maps JSON `null`
  to Python `None`, so no separate null is needed.
- A Python instance attribute that may be *unassigned* (so that reading it
  raises `AttributeError`) is modelled as `Option PyVal`, with `Option.none`
  meaning the attribute was never assigned.  Attributes that are always
  assigned in `__init__` (possibly to `None`) are plain `PyVal`.
- Exceptions are modelled by `Except PyError`.  Methods that mutate the
  session before possibly raising return `Session × Except PyError α`: the
  first component is the state after the call, whether or not it raised.
- External collaborators (the `requests` transport, `almdrlib.config`,
  `almdrlib.region`) are not part of the embedded code: their outputs are
  passed in as parameters (HTTP responses, resolved config values) and, for
  `Region.get_endpoint_url`, modelled from the spec as a record of its
  inputs.
-/

mutual
/-- A Python value as reachable in `almdrlib.session`: `None`, a string, or a
string-keyed dict (JSON objects decoded by `response.json()`). -/
inductive PyVal where
  | none : PyVal
  | str : String → PyVal
  | dict : PyFields → PyVal
deriving DecidableEq, Repr
/-- The entries of a Python dict with string keys, in insertion order. -/
inductive PyFields where
  | nil : PyFields
  | cons : String → PyVal → PyFields → PyFields
deriving DecidableEq, Repr
end

/-- Python `v is None`. -/
def PyVal.isNone : PyVal → Bool
  | PyVal.none => true
  | _ => false

/-- Python truthiness for the values of `PyVal` (used by `if aims_token:` and
by `account_id or self.account_id`). -/
def PyVal.truthy : PyVal → Bool
  | PyVal.none => false
  | PyVal.str s => !s.isEmpty
  | PyVal.dict PyFields.nil => false
  | PyVal.dict (PyFields.cons _ _ _) => true

/-- `str.format` of a `PyVal`, as used by `"https://{}".format(...)`; only the
string case matters to the claims, the rest are best-effort renderings. -/
def PyVal.format : PyVal → String
  | PyVal.none => "None"
  | PyVal.str s => s
  | PyVal.dict _ => "<dict>"

/-- The error raised by a Python dict subscript: `KeyError` for a missing key
of a dict, `TypeError` for subscripting a non-dict.  `_authenticate` catches
`(KeyError, TypeError, ValueError)` together, so the distinction is only kept
for fidelity. -/
inductive SubscriptErr where
  | keyErr : SubscriptErr
  | typeErr : SubscriptErr
deriving DecidableEq, Repr

/-- Lookup of a key among dict entries (first binding wins; `PyFields.setKey`
below keeps keys unique anyway). -/
def PyFields.lookup : PyFields → String → Option PyVal
  | PyFields.nil, _ => Option.none
  | PyFields.cons k v rest, key =>
      if k = key then Option.some v else PyFields.lookup rest key

/-- Python dict assignment `d[key] = v` / `d.update({key: v})`: replace the
binding if the key is present, append it otherwise. -/
def PyFields.setKey : PyFields → String → PyVal → PyFields
  | PyFields.nil, key, v => PyFields.cons key v PyFields.nil
  | PyFields.cons k1 v1 rest, key, v =>
      if k1 = key then PyFields.cons k1 v rest
      else PyFields.cons k1 v1 (PyFields.setKey rest key v)

/-- Python subscript `v[key]`. -/
def PyVal.getItem : PyVal → String → Except SubscriptErr PyVal
  | PyVal.dict entries, key =>
      match entries.lookup key with
      | Option.some v => Except.ok v
      | Option.none => Except.error SubscriptErr.keyErr
  | _, _ => Except.error SubscriptErr.typeErr

/-- `v[k1][k2]`, failing as soon as a subscript fails. -/
def getItem2 (v : PyVal) (k1 k2 : String) : Except SubscriptErr PyVal :=
  match v.getItem k1 with
  | Except.error e => Except.error e
  | Except.ok a => a.getItem k2

/-- `v[k1][k2][k3]`, failing as soon as a subscript fails. -/
def getItem3 (v : PyVal) (k1 k2 k3 : String) : Except SubscriptErr PyVal :=
  match getItem2 v k1 k2 with
  | Except.error e => Except.error e
  | Except.ok a => a.getItem k3

/-- An HTTP response as seen by this code: its status code and its decoded
JSON body (`response.json()`). -/
structure HttpResponse where
  status_code : Nat
  body : PyVal
deriving DecidableEq, Repr

/-- 2xx test: `response.raise_for_status()` of the external requests library,
modelled from the spec, raises exactly on a non-2xx status. -/
def is2xx (status : Nat) : Bool := 200 ≤ status && status < 300

/-- The exceptions that escape the embedded methods: the module's own
`AuthenticationException`, Python's `AttributeError` (reading an unassigned
attribute), the transport's `HTTPError` from `raise_for_status`, and a
`KeyError` escaping uncaught (as in `get_url`'s final subscript). -/
inductive PyError where
  | authenticationException : String → PyError
  | attributeError : String → PyError
  | httpError : Nat → PyError
  | keyError : String → PyError
deriving DecidableEq, Repr

/-- The `Session` object's attribute state (`src/almdrlib/session.py`).
`_account_name`, `_access_key_id` and `_secret_key` are `Option PyVal`
because `__init__` does not always assign them; the rest are always
assigned. -/
structure Session where
  _token : PyVal
  _account_id : PyVal
  _account_name : Option PyVal
  _access_key_id : Option PyVal
  _secret_key : Option PyVal
  _residency : String
  _global_endpoint : String
  _global_endpoint_url : String
  _raise_for_status : Bool
deriving DecidableEq, Repr

/-- Embeds `Session.__init__` (lines 38-93).  `almdrlib.config.Config` and
`almdrlib.region.Region.get_global_endpoint` are external collaborators:
their resolved outputs are the parameters `cfg_account_id`
(`self._config.account_id`), `auth_key`/`auth_secret`
(`self._config.get_auth()`), `cfg_residency`, `cfg_global_endpoint` and
`global_endpoint_url`.  Only a truthy `aims_token` (`if aims_token:`) takes
the token branch; otherwise `_access_key_id`/`_secret_key` are assigned. -/
def Session.init (aims_token : Option String) (cfg_account_id : PyVal)
    (auth_key auth_secret : PyVal)
    (cfg_residency cfg_global_endpoint global_endpoint_url : String)
    (raise_for_status : Bool) : Session :=
  let base : Session :=
    { _token := PyVal.none
      _account_id := cfg_account_id
      _account_name := Option.none
      _access_key_id := Option.none
      _secret_key := Option.none
      _residency := cfg_residency
      _global_endpoint := cfg_global_endpoint
      _global_endpoint_url := global_endpoint_url
      _raise_for_status := raise_for_status }
  match aims_token with
  | Option.some t =>
      if !t.isEmpty then { base with _token := PyVal.str t }
      else { base with
              _access_key_id := Option.some auth_key
              _secret_key := Option.some auth_secret }
  | Option.none =>
      { base with
          _access_key_id := Option.some auth_key
          _secret_key := Option.some auth_secret }

/-- Embeds `Session._set_credentials` (lines 95-98): assigns the three
attributes directly, `self._token = aims_token` included. -/
def Session._set_credentials (s : Session)
    (access_key_id secret_key aims_token : PyVal) : Session :=
  { s with
      _access_key_id := Option.some access_key_id
      _secret_key := Option.some secret_key
      _token := aims_token }

/-- Embeds `Session._authenticate` (lines 100-133).  `resp` is the response
the external transport returns for the POST to
`{global_endpoint_url}/aims/v1/authenticate`; its `raise_for_status` is
modelled from the spec as raising exactly on non-2xx.  The `logger.info`
f-string reads `self._access_key_id` first and `self._session.auth = (...)`
reads `self._secret_key`, so an unassigned attribute raises
`AttributeError` before any HTTP activity.  The returned `Session` is the
state after the call even when an exception is raised, reproducing the
partial mutation the Python code performs before raising. -/
def Session._authenticate (s : Session) (resp : HttpResponse) :
    Session × Except PyError Unit :=
  match s._access_key_id with
  | Option.none => (s, Except.error (PyError.attributeError "_access_key_id"))
  | Option.some _ =>
  match s._secret_key with
  | Option.none => (s, Except.error (PyError.attributeError "_secret_key"))
  | Option.some _ =>
  if !is2xx resp.status_code then
    (s, Except.error (PyError.authenticationException "invalid http response"))
  else
    match getItem2 resp.body "authentication" "token" with
    | Except.error _ =>
        (s, Except.error
          (PyError.authenticationException "token not found in response"))
    | Except.ok tok =>
      let s1 : Session := { s with _token := tok }
      match
        (if s1._account_id.isNone then
          match getItem3 resp.body "authentication" "account" "id" with
          | Except.error _ =>
              (s1, Option.some (PyError.authenticationException
                      "account id not found in response"))
          | Except.ok aid =>
              ({ s1 with _account_id := aid }, Option.none)
        else (s1, Option.none) : Session × Option PyError)
      with
      | (s2, Option.some e) => (s2, Except.error e)
      | (s2, Option.none) =>
        match getItem3 resp.body "authentication" "account" "name" with
        | Except.error _ =>
            (s2, Except.error
              (PyError.authenticationException "account name not found in response"))
        | Except.ok nm =>
            ({ s2 with _account_name := Option.some nm }, Except.ok Unit.unit)

/-- Embeds the `account_id` property (lines 244-248): authenticates iff the
stored `_account_id` is `None`, then returns it.  `resp` is the environment
for the possible authenticate call. -/
def Session.account_id (s : Session) (resp : HttpResponse) :
    Session × Except PyError PyVal :=
  if s._account_id.isNone then
    match Session._authenticate s resp with
    | (s1, Except.error e) => (s1, Except.error e)
    | (s1, Except.ok _) => (s1, Except.ok s1._account_id)
  else (s, Except.ok s._account_id)

/-- Embeds the `account_name` property (lines 254-256): a plain read of
`self._account_name`, raising `AttributeError` when never assigned. -/
def Session.account_name (s : Session) : Except PyError PyVal :=
  match s._account_name with
  | Option.none => Except.error (PyError.attributeError "_account_name")
  | Option.some v => Except.ok v

/-- Embeds the `token` property (lines 266-268). -/
def Session.token (s : Session) : PyVal := s._token

/-- Embeds the `residency` property (lines 250-252). -/
def Session.residency (s : Session) : String := s._residency

/-- Embeds the `global_endpoint_url` property (lines 262-264). -/
def Session.global_endpoint_url (s : Session) : String := s._global_endpoint_url

/-- An outbound HTTP request object as handed to the requests-lib auth
callback: mutable headers (a Python dict) plus the fields the callback must
not touch. -/
structure Request where
  method : String
  url : String
  headers : PyFields
  body : String
deriving DecidableEq, Repr

/-- The header the session attaches its token under. -/
def xAimsAuthToken : String := "x-aims-auth-token"

/-- Embeds `Session.__call__` (lines 135-142), the requests-lib auth
callback: authenticates iff `self._token is None`, then assigns the
`x-aims-auth-token` header on `r` and returns it.  `resp` is the environment
for the possible authenticate call. -/
def Session.call (s : Session) (resp : HttpResponse) (r : Request) :
    Session × Except PyError Request :=
  if s._token.isNone then
    match Session._authenticate s resp with
    | (s1, Except.error e) => (s1, Except.error e)
    | (s1, Except.ok _) =>
        (s1, Except.ok
          { r with headers := r.headers.setKey xAimsAuthToken s1._token })
  else
    (s, Except.ok
      { r with headers := r.headers.setKey xAimsAuthToken s._token })

/-- Embeds `Session.request` (lines 197-222).  `headers` is the
caller-supplied dict (or, when the argument is omitted, the function's
shared mutable default dict); the first component of the result is that same
dict after the in-place `headers.update(...)`, returned whether or not
`raise_for_status` raises.  `resp` is what the external transport returns;
its `raise_for_status` is modelled from the spec as raising exactly on
non-2xx.  The method reads `self._token` but never authenticates and never
mutates the session, so no `Session` is returned. -/
def Session.request (s : Session) (method url : String)
    (headers : PyFields) (resp : HttpResponse) :
    PyFields × Except PyError HttpResponse :=
  let headers1 := headers.setKey xAimsAuthToken s._token
  if s._raise_for_status && !is2xx resp.status_code then
    (headers1, Except.error (PyError.httpError resp.status_code))
  else
    (headers1, Except.ok resp)

/-- Modelled from the spec: `almdrlib.region.Region.get_endpoint_url` is not
under `src/`; the spec says only that the directory URL is built by the
external endpoint resolver from the global endpoint URL, the service name,
the account id and the residency, so the issued query is modelled as the
record of those four inputs. -/
structure EndpointQuery where
  global_endpoint_url : String
  service_name : String
  account_id : PyVal
  residency : String
deriving DecidableEq, Repr

/-- Embeds `Session.get_url` (lines 182-195).  `account_id or
self.account_id` short-circuits: a truthy argument is used as is, otherwise
the `account_id` property is read (possibly authenticating, with `authResp`
as its environment).  `dirResp` is what the external transport returns for
the GET to the endpoint-directory URL; the issued `EndpointQuery` is
reported when the GET happened (`Option.none` when account resolution raised
first).  A non-2xx directory response raises `AuthenticationException`; the
final `response.json()[service_name]` subscript is outside the try and a
missing key escapes as `KeyError`. -/
def Session.get_url (s : Session) (service_name : String) (account_id : PyVal)
    (authResp dirResp : HttpResponse) :
    Session × Option EndpointQuery × Except PyError String :=
  match
    (if account_id.truthy then (s, Except.ok account_id)
     else Session.account_id s authResp : Session × Except PyError PyVal)
  with
  | (s1, Except.error e) => (s1, Option.none, Except.error e)
  | (s1, Except.ok acct) =>
    let q : EndpointQuery :=
      { global_endpoint_url := s1._global_endpoint_url
        service_name := service_name
        account_id := acct
        residency := s1._residency }
    if !is2xx dirResp.status_code then
      (s1, Option.some q,
        Except.error (PyError.authenticationException
          "invalid http response from endpoints service"))
    else
      match dirResp.body.getItem service_name with
      | Except.error _ =>
          (s1, Option.some q, Except.error (PyError.keyError service_name))
      | Except.ok v =>
          (s1, Option.some q, Except.ok ("https://" ++ v.format))

/-! ## Helper lemmas -/

/-- After `d[key] = v`, looking up `key` finds `v`. -/
theorem PyFields.lookup_setKey : (h : PyFields) → (key : String) → (v : PyVal) →
    (h.setKey key v).lookup key = Option.some v
  | PyFields.nil, key, v => by simp [PyFields.setKey, PyFields.lookup]
  | PyFields.cons k1 v1 rest, key, v => by
      by_cases hk : k1 = key <;>
        simp [PyFields.setKey, PyFields.lookup, hk,
          PyFields.lookup_setKey rest key v]

/-- Inserting a key that was absent changes the dict. -/
theorem PyFields.setKey_ne_of_lookup_none (h : PyFields) (key : String)
    (v : PyVal) (hab : h.lookup key = Option.none) : h.setKey key v ≠ h := by
  intro heq
  have hfound := PyFields.lookup_setKey h key v
  rw [heq, hab] at hfound
  exact Option.noConfusion hfound

/-- `Session.init` on a truthy `aims_token`: the token branch of `__init__`,
which leaves `_access_key_id`/`_secret_key` unassigned. -/
theorem Session.init_token_branch (t : String) (ht : t.isEmpty = false)
    (cfg_account_id auth_key auth_secret : PyVal)
    (res ge url : String) (rfs : Bool) :
    Session.init (Option.some t) cfg_account_id auth_key auth_secret
        res ge url rfs
      = { _token := PyVal.str t
          _account_id := cfg_account_id
          _account_name := Option.none
          _access_key_id := Option.none
          _secret_key := Option.none
          _residency := res
          _global_endpoint := ge
          _global_endpoint_url := url
          _raise_for_status := rfs } := by
  simp [Session.init, ht]

/-- `Session.init` with no `aims_token`: the credential branch of `__init__`,
which assigns `_access_key_id`/`_secret_key` from `config.get_auth()`. -/
theorem Session.init_key_branch (cfg_account_id auth_key auth_secret : PyVal)
    (res ge url : String) (rfs : Bool) :
    Session.init Option.none cfg_account_id auth_key auth_secret
        res ge url rfs
      = { _token := PyVal.none
          _account_id := cfg_account_id
          _account_name := Option.none
          _access_key_id := Option.some auth_key
          _secret_key := Option.some auth_secret
          _residency := res
          _global_endpoint := ge
          _global_endpoint_url := url
          _raise_for_status := rfs } := by
  simp [Session.init]

/-- The headers dict handed to `request` always comes back with the token
entry assigned, whether or not `raise_for_status` raises. -/
theorem Session.request_headers_eq (s : Session) (m u : String)
    (h : PyFields) (resp : HttpResponse) :
    (Session.request s m u h resp).1 = h.setKey xAimsAuthToken s._token := by
  unfold Session.request
  split <;> rfl

/-- Reading the `account_id` property on a session whose stored account id is
`None` delegates to `_authenticate`: same resulting state, and the value (when
no exception) is the freshly stored account id. -/
theorem Session.account_id_none_eq (s : Session) (resp : HttpResponse)
    (h : s._account_id = PyVal.none) :
    Session.account_id s resp
      = ((Session._authenticate s resp).1,
         Except.map (fun _ => (Session._authenticate s resp).1._account_id)
           (Session._authenticate s resp).2) := by
  rcases hA : Session._authenticate s resp with ⟨s1, r1⟩
  cases r1 <;> simp [Session.account_id, h, PyVal.isNone, hA, Except.map]

/-- The sign-request callback on a session whose token is `None` delegates to
`_authenticate`: same resulting state, and (when no exception) the request
comes back with the fresh token assigned to its header. -/
theorem Session.call_token_none_eq (s : Session) (resp : HttpResponse)
    (r : Request) (h : s._token = PyVal.none) :
    Session.call s resp r
      = ((Session._authenticate s resp).1,
         Except.map
           (fun _ => { r with headers :=
              r.headers.setKey xAimsAuthToken (Session._authenticate s resp).1._token })
           (Session._authenticate s resp).2) := by
  rcases hA : Session._authenticate s resp with ⟨s1, r1⟩
  cases r1 <;> simp [Session.call, h, PyVal.isNone, hA, Except.map]

/-- When the token field parses (keys set, 2xx), the token stored by
`_authenticate` is exactly the parsed value, whether or not the call then
raises on the account fields. -/
theorem Session.authenticate_token_after_parse (s : Session)
    (resp : HttpResponse) (k sec : PyVal)
    (hk : s._access_key_id = Option.some k)
    (hsec : s._secret_key = Option.some sec)
    (h2 : is2xx resp.status_code = true) (tok : PyVal)
    (htok : getItem2 resp.body "authentication" "token" = Except.ok tok) :
    (Session._authenticate s resp).1._token = tok := by
  by_cases hacc : s._account_id.isNone <;>
    cases hid : getItem3 resp.body "authentication" "account" "id" <;>
    cases hnm : getItem3 resp.body "authentication" "account" "name" <;>
    simp [Session._authenticate, hk, hsec, h2, htok, hacc, hid, hnm]

/-- The token after `_authenticate` is either untouched (the call raised
before storing it) or exactly the `authentication.token` value parsed from
the response — even when the call then raises on the account fields. -/
theorem Session.authenticate_token_characterization (s : Session)
    (resp : HttpResponse) :
    (Session._authenticate s resp).1._token = s._token
    ∨ getItem2 resp.body "authentication" "token"
        = Except.ok (Session._authenticate s resp).1._token := by
  cases hk : s._access_key_id with
  | none => exact Or.inl (by simp [Session._authenticate, hk])
  | some k =>
    cases hsec : s._secret_key with
    | none => exact Or.inl (by simp [Session._authenticate, hk, hsec])
    | some sec =>
      cases h2 : is2xx resp.status_code with
      | false => exact Or.inl (by simp [Session._authenticate, hk, hsec, h2])
      | true =>
        cases htok : getItem2 resp.body "authentication" "token" with
        | error e =>
            exact Or.inl (by simp [Session._authenticate, hk, hsec, h2, htok])
        | ok tok =>
            refine Or.inr ?_
            rw [Session.authenticate_token_after_parse s resp k sec hk hsec
              h2 tok htok]

/-- A non-None token survives `_authenticate` provided the response never
carries a JSON-null `authentication.token` value. -/
theorem Session.authenticate_preserves_token_nonnull (s : Session)
    (resp : HttpResponse) (hne : s._token ≠ PyVal.none)
    (hnonnull : ∀ v, getItem2 resp.body "authentication" "token"
        = Except.ok v → v ≠ PyVal.none) :
    (Session._authenticate s resp).1._token ≠ PyVal.none := by
  rcases Session.authenticate_token_characterization s resp with h | h
  · rw [h]; exact hne
  · exact hnonnull _ h

/-- The state after reading the `account_id` property is either the original
one or the state `_authenticate` produced. -/
theorem Session.account_id_state (s : Session) (resp : HttpResponse) :
    (Session.account_id s resp).1 = s
    ∨ (Session.account_id s resp).1 = (Session._authenticate s resp).1 := by
  by_cases h : s._account_id.isNone
  · refine Or.inr ?_
    rcases hA : Session._authenticate s resp with ⟨s1, r1⟩
    cases r1 <;> simp [Session.account_id, h, hA]
  · exact Or.inl (by simp [Session.account_id, h])

/-- The state after `get_url` is either the original one or the state the
`account_id` property read produced. -/
theorem Session.get_url_state (s : Session) (svc : String) (acct : PyVal)
    (authResp dirResp : HttpResponse) :
    (Session.get_url s svc acct authResp dirResp).1 = s
    ∨ (Session.get_url s svc acct authResp dirResp).1
        = (Session.account_id s authResp).1 := by
  cases ht : acct.truthy with
  | true =>
      refine Or.inl ?_
      cases hd : is2xx dirResp.status_code <;>
        cases hv : dirResp.body.getItem svc <;>
        simp [Session.get_url, ht, hd, hv]
  | false =>
      refine Or.inr ?_
      rcases hA : Session.account_id s authResp with ⟨s1, r1⟩
      cases r1 <;>
        cases hd : is2xx dirResp.status_code <;>
        cases hv : dirResp.body.getItem svc <;>
        simp [Session.get_url, ht, hA, hd, hv]

/-! ## Claim theorems -/

/-- C1: for a session constructed with a token supplied directly, reading
`account_id` issues no authenticate call when the account id was also
supplied — the state is unchanged and the stored id is returned, for every
possible response environment; but when the account id was not supplied,
reading `account_id` delegates to the authenticate operation even though the
token is already non-None, because the property checks only whether the
stored account id is `None`. -/
theorem Session.account_id_lazy_despite_token
    (t : String) (ht : t.isEmpty = false) (aid : String)
    (auth_key auth_secret : PyVal) (res ge url : String) (rfs : Bool)
    (withAcct noAcct : Session)
    (hw : withAcct = Session.init (Option.some t) (PyVal.str aid)
            auth_key auth_secret res ge url rfs)
    (hn : noAcct = Session.init (Option.some t) PyVal.none
            auth_key auth_secret res ge url rfs)
    (resp : HttpResponse) :
    withAcct._token = PyVal.str t
    ∧ Session.account_id withAcct resp = (withAcct, Except.ok (PyVal.str aid))
    ∧ noAcct._token = PyVal.str t
    ∧ Session.account_id noAcct resp
        = ((Session._authenticate noAcct resp).1,
           Except.map (fun _ => (Session._authenticate noAcct resp).1._account_id)
             (Session._authenticate noAcct resp).2) := by
  subst hw hn
  rw [Session.init_token_branch t ht, Session.init_token_branch t ht]
  refine ⟨rfl, rfl, rfl, ?_⟩
  exact Session.account_id_none_eq _ resp rfl

/-- Witness for C1: a concrete token-plus-account session returns its stored
account id without touching the state; the token-only session delegates to
`_authenticate` (which here stops with `AttributeError`, the token branch
never having assigned key/secret). -/
theorem Session.account_id_lazy_despite_token_witness :
    Session.account_id
        (Session.init (Option.some "T") (PyVal.str "12345678") PyVal.none
          PyVal.none "us" "production" "https://api.example.com" true)
        { status_code := 200, body := PyVal.none }
      = (Session.init (Option.some "T") (PyVal.str "12345678") PyVal.none
          PyVal.none "us" "production" "https://api.example.com" true,
         Except.ok (PyVal.str "12345678")) :=
  (Session.account_id_lazy_despite_token "T" (by decide) "12345678"
      PyVal.none PyVal.none "us" "production" "https://api.example.com" true
      _ _ rfl rfl { status_code := 200, body := PyVal.none }).2.1

/-- C4: the sign-request callback authenticates first iff the session's token
is `None`, then assigns the `x-aims-auth-token` header to the session's
token and returns the request with no other modification (method, url and
body untouched, as the `{ r with ... }` update shows). -/
theorem Session.call_signs_request (s : Session) (resp : HttpResponse)
    (r : Request) :
    (s._token ≠ PyVal.none →
      Session.call s resp r
        = (s, Except.ok
            { r with headers := r.headers.setKey xAimsAuthToken s._token }))
    ∧ (s._token = PyVal.none →
      Session.call s resp r
        = ((Session._authenticate s resp).1,
           Except.map
             (fun _ => { r with headers :=
                r.headers.setKey xAimsAuthToken (Session._authenticate s resp).1._token })
             (Session._authenticate s resp).2)) := by
  constructor
  · intro h
    have hb : s._token.isNone = false := by
      cases hs : s._token <;> simp_all [PyVal.isNone]
    simp [Session.call, hb]
  · exact Session.call_token_none_eq s resp r

/-- Witness for C4: a session already holding a token signs a concrete
request without authenticating: same state, header assigned, rest intact. -/
theorem Session.call_signs_request_witness :
    Session.call
        (Session.init (Option.some "T") (PyVal.str "2") PyVal.none PyVal.none
          "us" "production" "https://api.example.com" true)
        { status_code := 200, body := PyVal.none }
        { method := "GET", url := "https://u", headers := PyFields.nil,
          body := "" }
      = (Session.init (Option.some "T") (PyVal.str "2") PyVal.none PyVal.none
           "us" "production" "https://api.example.com" true,
         Except.ok
           { method := "GET", url := "https://u",
             headers := PyFields.nil.setKey xAimsAuthToken
               (Session.init (Option.some "T") (PyVal.str "2") PyVal.none
                 PyVal.none "us" "production" "https://api.example.com"
                 true)._token,
             body := "" }) :=
  (Session.call_signs_request
      (Session.init (Option.some "T") (PyVal.str "2") PyVal.none PyVal.none
        "us" "production" "https://api.example.com" true)
      { status_code := 200, body := PyVal.none }
      { method := "GET", url := "https://u", headers := PyFields.nil,
        body := "" }).1 (by decide)

/-- C2: when the authenticate response body lacks the `authentication.token`
field, the operation raises `AuthenticationError` and the session state is
exactly what it was before the call — token remains `None` if it was, and
account id/name keep their prior values. -/
theorem Session.authenticate_missing_token_atomic (s : Session)
    (resp : HttpResponse) (k sec : PyVal)
    (hk : s._access_key_id = Option.some k)
    (hsec : s._secret_key = Option.some sec)
    (hmiss : ∃ e, getItem2 resp.body "authentication" "token"
        = Except.error e) :
    ∃ msg, Session._authenticate s resp
        = (s, Except.error (PyError.authenticationException msg)) := by
  obtain ⟨e, he⟩ := hmiss
  by_cases h2 : is2xx resp.status_code
  · exact ⟨"token not found in response", by
      simp [Session._authenticate, hk, hsec, h2, he]⟩
  · exact ⟨"invalid http response", by
      simp [Session._authenticate, hk, hsec, h2]⟩

/-- C7 counterexample: on a freshly constructed session (no token supplied,
no account id), `__init__` never assigns `_account_name`, so reading the
`account_name` property raises `AttributeError` — it does not yield `None`
as the claim states. -/
theorem Session.account_name_fresh_attribute_error :
    Session.account_name
        (Session.init Option.none PyVal.none (PyVal.str "k") (PyVal.str "s")
          "us" "production" "https://api.example.com" true)
      = Except.error (PyError.attributeError "_account_name")
    ∧ Session.account_name
        (Session.init Option.none PyVal.none (PyVal.str "k") (PyVal.str "s")
          "us" "production" "https://api.example.com" true)
      ≠ Except.ok PyVal.none :=
  ⟨rfl, fun h => Except.noConfusion h⟩

/-- C7 amended: on a freshly constructed session with no token and no
account id supplied, `_token` and `_account_id` start as `None`, but
`_account_name` is not initialized at all — reading `account_name` before
authentication raises `AttributeError` rather than yielding `None`; a
successful authenticate call then populates all three fields from the
response body. -/
theorem Session.fresh_session_fields (auth_key auth_secret : PyVal)
    (res ge url : String) (rfs : Bool) (s : Session)
    (hs : s = Session.init Option.none PyVal.none auth_key auth_secret
            res ge url rfs)
    (resp : HttpResponse) (tok aid nm : PyVal)
    (h2 : is2xx resp.status_code = true)
    (htok : getItem2 resp.body "authentication" "token" = Except.ok tok)
    (hid : getItem3 resp.body "authentication" "account" "id"
        = Except.ok aid)
    (hnm : getItem3 resp.body "authentication" "account" "name"
        = Except.ok nm) :
    s._token = PyVal.none
    ∧ s._account_id = PyVal.none
    ∧ Session.account_name s
        = Except.error (PyError.attributeError "_account_name")
    ∧ Session._authenticate s resp
        = ({ s with
              _token := tok
              _account_id := aid
              _account_name := Option.some nm }, Except.ok Unit.unit) := by
  subst hs
  rw [Session.init_key_branch]
  refine ⟨rfl, rfl, rfl, ?_⟩
  simp [Session._authenticate, h2, htok, hid, hnm, PyVal.isNone]

/-- Witness for C7 (amended): a concrete well-formed 2xx response populates
token, account id and account name on a fresh session. -/
theorem Session.fresh_session_fields_witness :
    Session._authenticate
        (Session.init Option.none PyVal.none (PyVal.str "k") (PyVal.str "s")
          "us" "production" "https://api.example.com" true)
        { status_code := 200,
          body := PyVal.dict (PyFields.cons "authentication"
            (PyVal.dict (PyFields.cons "token" (PyVal.str "TOK")
              (PyFields.cons "account"
                (PyVal.dict (PyFields.cons "id" (PyVal.str "2")
                  (PyFields.cons "name" (PyVal.str "ACME") PyFields.nil)))
                PyFields.nil)))
            PyFields.nil) }
      = ({ Session.init Option.none PyVal.none (PyVal.str "k")
             (PyVal.str "s") "us" "production" "https://api.example.com"
             true with
           _token := PyVal.str "TOK"
           _account_id := PyVal.str "2"
           _account_name := Option.some (PyVal.str "ACME") },
         Except.ok Unit.unit) :=
  (Session.fresh_session_fields (PyVal.str "k") (PyVal.str "s")
      "us" "production" "https://api.example.com" true _ rfl
      { status_code := 200,
        body := PyVal.dict (PyFields.cons "authentication"
          (PyVal.dict (PyFields.cons "token" (PyVal.str "TOK")
            (PyFields.cons "account"
              (PyVal.dict (PyFields.cons "id" (PyVal.str "2")
                (PyFields.cons "name" (PyVal.str "ACME") PyFields.nil)))
              PyFields.nil)))
          PyFields.nil) }
      (PyVal.str "TOK") (PyVal.str "2") (PyVal.str "ACME")
      rfl rfl rfl rfl).2.2.2

/-- C3 counterexample: `_set_credentials` assigns `self._token = aims_token`
directly, so calling it with `aims_token = None` on a session whose token is
set transitions the token from non-None back to `None` — the claimed
invariant fails on the internal credential setter. -/
theorem Session.set_credentials_resets_token :
    (Session.init (Option.some "T") (PyVal.str "2") PyVal.none PyVal.none
        "us" "production" "https://api.example.com" true)._token
      = PyVal.str "T"
    ∧ (Session._set_credentials
        (Session.init (Option.some "T") (PyVal.str "2") PyVal.none PyVal.none
          "us" "production" "https://api.example.com" true)
        (PyVal.str "k") (PyVal.str "s") PyVal.none)._token
      = PyVal.none :=
  ⟨rfl, rfl⟩

/-- Witness for C2: a 2xx response whose body has an `authentication` object
without a `token` key: the call fails with `AuthenticationError` and the
session is unchanged. -/
theorem Session.authenticate_missing_token_atomic_witness :
    ∃ msg, Session._authenticate
        (Session.init Option.none PyVal.none (PyVal.str "k") (PyVal.str "s")
          "us" "production" "https://api.example.com" true)
        { status_code := 200,
          body := PyVal.dict (PyFields.cons "authentication"
            (PyVal.dict PyFields.nil) PyFields.nil) }
      = (Session.init Option.none PyVal.none (PyVal.str "k") (PyVal.str "s")
           "us" "production" "https://api.example.com" true,
         Except.error (PyError.authenticationException msg)) :=
  Session.authenticate_missing_token_atomic
    (Session.init Option.none PyVal.none (PyVal.str "k") (PyVal.str "s")
      "us" "production" "https://api.example.com" true)
    { status_code := 200,
      body := PyVal.dict (PyFields.cons "authentication"
        (PyVal.dict PyFields.nil) PyFields.nil) }
    (PyVal.str "k") (PyVal.str "s") rfl rfl
    ⟨SubscriptErr.keyErr, rfl⟩

/-- C3 amended: the claimed token monotonicity holds for the sign-request
callback, the `request` dispatcher and the accessor reads, but with two
carve-outs the source forces: (i) `_set_credentials` stores its `aims_token`
argument directly, so it can reset a non-None token to `None` (and set one
without any authenticate call); (ii) `_authenticate` stores whatever value
the response's `authentication.token` field carries, even when the call then
raises on the account fields — so a non-None token survives authenticate
(and the operations that may trigger it: `account_id` reads, `get_url`)
exactly when that field is never a JSON null, and a `None` token becomes set
only by an authenticate call that parsed the token field, successful or
not. -/
theorem Session.token_transitions (s : Session) (resp : HttpResponse)
    (r : Request) (svc : String) (acct : PyVal) (dirResp : HttpResponse) :
    (∀ k sec t, (Session._set_credentials s k sec t)._token = t)
    ∧ ((Session._authenticate s resp).1._token = s._token
       ∨ getItem2 resp.body "authentication" "token"
           = Except.ok (Session._authenticate s resp).1._token)
    ∧ (s._token = PyVal.none →
        (Session._authenticate s resp).1._token ≠ PyVal.none →
        getItem2 resp.body "authentication" "token"
          = Except.ok (Session._authenticate s resp).1._token)
    ∧ (s._token ≠ PyVal.none → (Session.call s resp r).1 = s)
    ∧ (s._token ≠ PyVal.none →
        (∀ v, getItem2 resp.body "authentication" "token" = Except.ok v →
          v ≠ PyVal.none) →
        (Session._authenticate s resp).1._token ≠ PyVal.none
        ∧ (Session.account_id s resp).1._token ≠ PyVal.none
        ∧ (Session.get_url s svc acct resp dirResp).1._token
            ≠ PyVal.none) := by
  refine ⟨fun k sec t => rfl,
    Session.authenticate_token_characterization s resp, ?_, ?_, ?_⟩
  · intro h0 hne
    rcases Session.authenticate_token_characterization s resp with h | h
    · exact absurd (h.trans h0) hne
    · exact h
  · intro hne
    have hb : s._token.isNone = false := by
      cases hs : s._token <;> simp_all [PyVal.isNone]
    simp [Session.call, hb]
  · intro hne hnn
    refine ⟨Session.authenticate_preserves_token_nonnull s resp hne hnn,
      ?_, ?_⟩
    · rcases Session.account_id_state s resp with h | h
      · rw [h]; exact hne
      · rw [h]
        exact Session.authenticate_preserves_token_nonnull s resp hne hnn
    · rcases Session.get_url_state s svc acct resp dirResp with h | h
      · rw [h]; exact hne
      · rw [h]
        rcases Session.account_id_state s resp with h2 | h2
        · rw [h2]; exact hne
        · rw [h2]
          exact Session.authenticate_preserves_token_nonnull s resp hne hnn

/-- Witness for C3 (amended): a concrete session with a token, against a
response that cannot yield a token value: reading `account_id` leaves the
token non-None. -/
theorem Session.token_transitions_witness :
    (Session.account_id
        (Session.init (Option.some "T") (PyVal.str "2") PyVal.none PyVal.none
          "us" "production" "https://api.example.com" true)
        { status_code := 200, body := PyVal.none }).1._token ≠ PyVal.none :=
  ((Session.token_transitions
      (Session.init (Option.some "T") (PyVal.str "2") PyVal.none PyVal.none
        "us" "production" "https://api.example.com" true)
      { status_code := 200, body := PyVal.none }
      { method := "GET", url := "https://u", headers := PyFields.nil,
        body := "" }
      "svc" PyVal.none
      { status_code := 200, body := PyVal.none }).2.2.2.2
    (by decide) (fun v hv => Except.noConfusion hv)).2.1

/-- C8: `get_url` with the `account_id` argument omitted (Python default
`None`, which is falsy) resolves the account through the session's own
`account_id` property and issues the directory query for exactly that
account; on a 2xx directory response whose JSON body maps the service name
to a hostname the result is `"https://"` followed by that hostname; on a
non-2xx directory response it raises `AuthenticationError`. -/
theorem Session.get_url_directory_lookup (s s1 : Session) (svc : String)
    (acct : PyVal) (authResp dirResp : HttpResponse) (hostname : String)
    (hacct : Session.account_id s authResp = (s1, Except.ok acct)) :
    ((Session.get_url s svc PyVal.none authResp dirResp).1 = s1)
    ∧ ((Session.get_url s svc PyVal.none authResp dirResp).2.1
        = Option.some
            { global_endpoint_url := s1._global_endpoint_url
              service_name := svc
              account_id := acct
              residency := s1._residency })
    ∧ (is2xx dirResp.status_code = true →
        dirResp.body.getItem svc = Except.ok (PyVal.str hostname) →
        (Session.get_url s svc PyVal.none authResp dirResp).2.2
          = Except.ok ("https://" ++ hostname))
    ∧ (is2xx dirResp.status_code = false →
        (Session.get_url s svc PyVal.none authResp dirResp).2.2
          = Except.error (PyError.authenticationException
              "invalid http response from endpoints service")) := by
  refine ⟨?_, ?_, ?_, ?_⟩
  · cases hd : is2xx dirResp.status_code <;>
      cases hv : dirResp.body.getItem svc <;>
      simp [Session.get_url, PyVal.truthy, hacct, hd, hv]
  · cases hd : is2xx dirResp.status_code <;>
      cases hv : dirResp.body.getItem svc <;>
      simp [Session.get_url, PyVal.truthy, hacct, hd, hv]
  · intro h2 hget
    simp [Session.get_url, PyVal.truthy, hacct, h2, hget, PyVal.format]
  · intro hd
    cases hv : dirResp.body.getItem svc <;>
      simp [Session.get_url, PyVal.truthy, hacct, hd, hv]

/-- Witness for C8: a session that already knows its account id and a 2xx
directory response mapping the service to a hostname: the result is the
https URL of that hostname. -/
theorem Session.get_url_directory_lookup_witness :
    (Session.get_url
        (Session.init (Option.some "T") (PyVal.str "2") PyVal.none PyVal.none
          "us" "production" "https://api.example.com" true)
        "myservice" PyVal.none
        { status_code := 200, body := PyVal.none }
        { status_code := 200,
          body := PyVal.dict (PyFields.cons "myservice"
            (PyVal.str "api.host.example.com") PyFields.nil) }).2.2
      = Except.ok ("https://" ++ "api.host.example.com") :=
  (Session.get_url_directory_lookup
      (Session.init (Option.some "T") (PyVal.str "2") PyVal.none PyVal.none
        "us" "production" "https://api.example.com" true)
      (Session.init (Option.some "T") (PyVal.str "2") PyVal.none PyVal.none
        "us" "production" "https://api.example.com" true)
      "myservice" (PyVal.str "2")
      { status_code := 200, body := PyVal.none }
      { status_code := 200,
        body := PyVal.dict (PyFields.cons "myservice"
          (PyVal.str "api.host.example.com") PyFields.nil) }
      "api.host.example.com" rfl).2.2.1 rfl rfl

/-- C5: the generic `request` method never triggers the authenticate
operation: for every session, token `None` or not, its outcome is fully
determined by the stored fields and the transport's response — it attaches
the current token value (possibly `None`) as the `x-aims-auth-token` header
and dispatches the call, succeeding or raising only per `raise_for_status`. -/
theorem Session.request_attaches_token_without_auth (s : Session)
    (method url : String) (headers : PyFields) (resp : HttpResponse) :
    Session.request s method url headers resp
      = (headers.setKey xAimsAuthToken s._token,
         if s._raise_for_status && !is2xx resp.status_code then
           Except.error (PyError.httpError resp.status_code)
         else Except.ok resp)
    ∧ (Session.request s method url headers resp).1.lookup xAimsAuthToken
        = Option.some s._token := by
  constructor
  · by_cases hc : s._raise_for_status && !is2xx resp.status_code <;>
      simp [Session.request, hc]
  · rw [Session.request_headers_eq]
    exact PyFields.lookup_setKey headers xAimsAuthToken s._token

/-- C6: with `raise_for_status = false`, a non-2xx response (e.g. 404) is
returned as is, carrying its status code; with `raise_for_status = true`, a
non-2xx response raises an HTTP error. -/
theorem Session.request_raise_for_status_choice (s : Session)
    (method url : String) (headers : PyFields) (resp : HttpResponse)
    (hstatus : is2xx resp.status_code = false) :
    (s._raise_for_status = false →
      (Session.request s method url headers resp).2 = Except.ok resp)
    ∧ (s._raise_for_status = true →
      (Session.request s method url headers resp).2
        = Except.error (PyError.httpError resp.status_code)) := by
  constructor <;> intro h <;> simp [Session.request, h, hstatus]

/-- Witness for C6: a session built with `raise_for_status=False` and a 404
response: `request` returns the 404 response rather than raising. -/
theorem Session.request_raise_for_status_choice_witness :
    (Session.request
        (Session.init Option.none (PyVal.str "2") (PyVal.str "k")
          (PyVal.str "s") "us" "production" "https://api.example.com" false)
        "GET" "https://api.example.com/x" PyFields.nil
        { status_code := 404, body := PyVal.none }).2
      = Except.ok { status_code := 404, body := PyVal.none } :=
  (Session.request_raise_for_status_choice
      (Session.init Option.none (PyVal.str "2") (PyVal.str "k")
        (PyVal.str "s") "us" "production" "https://api.example.com" false)
      "GET" "https://api.example.com/x" PyFields.nil
      { status_code := 404, body := PyVal.none } (by decide)).1 (by decide)

/-- C10: `request` mutates the caller-supplied headers dict in place,
inserting the `x-aims-auth-token` entry (when the key was absent the dict
after the call differs from the one passed in), and when the shared mutable
default dict is threaded through a later call the entry is still present
(re-assigned to the later session's token). -/
theorem Session.request_mutates_headers (s s2 : Session)
    (m u m2 u2 : String) (h0 : PyFields) (resp resp2 : HttpResponse)
    (habsent : h0.lookup xAimsAuthToken = Option.none) :
    (Session.request s m u h0 resp).1 ≠ h0
    ∧ (Session.request s m u h0 resp).1.lookup xAimsAuthToken
        = Option.some s._token
    ∧ (Session.request s2 m2 u2 (Session.request s m u h0 resp).1 resp2).1.lookup
        xAimsAuthToken = Option.some s2._token := by
  refine ⟨?_, ?_, ?_⟩
  · rw [Session.request_headers_eq]
    exact PyFields.setKey_ne_of_lookup_none h0 xAimsAuthToken s._token habsent
  · rw [Session.request_headers_eq]
    exact PyFields.lookup_setKey h0 xAimsAuthToken s._token
  · rw [Session.request_headers_eq, Session.request_headers_eq]
    exact PyFields.lookup_setKey _ xAimsAuthToken s2._token

/-- Witness for C10: with the empty dict (the shared default's initial
value), one call inserts the token entry and a second call still finds it. -/
theorem Session.request_mutates_headers_witness :
    (Session.request
        (Session.init (Option.some "T") (PyVal.str "2") PyVal.none PyVal.none
          "us" "production" "https://api.example.com" false)
        "GET" "https://u" PyFields.nil
        { status_code := 200, body := PyVal.none }).1 ≠ PyFields.nil
    ∧ (Session.request
        (Session.init (Option.some "T") (PyVal.str "2") PyVal.none PyVal.none
          "us" "production" "https://api.example.com" false)
        "GET" "https://u" PyFields.nil
        { status_code := 200, body := PyVal.none }).1.lookup xAimsAuthToken
      = Option.some (PyVal.str "T") :=
  ⟨(Session.request_mutates_headers
      (Session.init (Option.some "T") (PyVal.str "2") PyVal.none PyVal.none
        "us" "production" "https://api.example.com" false)
      (Session.init (Option.some "T") (PyVal.str "2") PyVal.none PyVal.none
        "us" "production" "https://api.example.com" false)
      "GET" "https://u" "GET" "https://u" PyFields.nil
      { status_code := 200, body := PyVal.none }
      { status_code := 200, body := PyVal.none } rfl).1,
   (Session.request_mutates_headers
      (Session.init (Option.some "T") (PyVal.str "2") PyVal.none PyVal.none
        "us" "production" "https://api.example.com" false)
      (Session.init (Option.some "T") (PyVal.str "2") PyVal.none PyVal.none
        "us" "production" "https://api.example.com" false)
      "GET" "https://u" "GET" "https://u" PyFields.nil
      { status_code := 200, body := PyVal.none }
      { status_code := 200, body := PyVal.none } rfl).2.1⟩

/-- C9: a session constructed with an `aims_token` and no key/secret never
assigns `_access_key_id`/`_secret_key`; a later `_authenticate` (e.g. via the
`account_id` accessor when no account id was supplied) raises
`AttributeError` — which is not an `AuthenticationError` — before any HTTP
activity: the outcome is the same for every response and the state is
unchanged. -/
theorem Session.token_only_authenticate_attribute_error
    (t : String) (ht : t.isEmpty = false) (auth_key auth_secret : PyVal)
    (res ge url : String) (rfs : Bool) (s : Session)
    (hs : s = Session.init (Option.some t) PyVal.none auth_key auth_secret
            res ge url rfs)
    (resp : HttpResponse) :
    s._access_key_id = Option.none
    ∧ s._secret_key = Option.none
    ∧ Session._authenticate s resp
        = (s, Except.error (PyError.attributeError "_access_key_id"))
    ∧ (∀ msg, PyError.attributeError "_access_key_id"
        ≠ PyError.authenticationException msg)
    ∧ Session.account_id s resp
        = (s, Except.error (PyError.attributeError "_access_key_id")) := by
  subst hs
  rw [Session.init_token_branch t ht]
  refine ⟨rfl, rfl, rfl, ?_, ?_⟩
  · intro msg h
    exact PyError.noConfusion h
  · rfl

/-- Witness for C9: a concrete token-only session; `account_id` propagates
the `AttributeError` from the authenticate attempt. -/
theorem Session.token_only_authenticate_attribute_error_witness :
    Session.account_id
        (Session.init (Option.some "TOKEN") PyVal.none PyVal.none PyVal.none
          "us" "production" "https://api.example.com" true)
        { status_code := 200, body := PyVal.none }
      = (Session.init (Option.some "TOKEN") PyVal.none PyVal.none PyVal.none
          "us" "production" "https://api.example.com" true,
         Except.error (PyError.attributeError "_access_key_id")) :=
  (Session.token_only_authenticate_attribute_error "TOKEN" (by decide)
      PyVal.none PyVal.none "us" "production" "https://api.example.com" true
      _ rfl { status_code := 200, body := PyVal.none }).2.2.2.2
